import Mathlib

/-!
Verification of the systembot station/faction state engine
(`src/systembot/bot.py`) against its natural-language specification.

The Python code is shallowly embedded: the PostgreSQL tables become
association lists inside a `DB` record, Python `dict` reads/writes become
`List.lookup` / `dictSet` (update-in-place-or-append, matching Python dict
semantics), Python `int` becomes `Int`, `datetime.time` becomes `PyTime`
(hour/minute/second/microsecond with lexicographic comparison, as CPython
compares `time` objects), and each Discord slash command becomes a pure
function from its inputs and the current `DB` to a typed `Reply` and the
next `DB`.  Timestamps (`updated_at`, `created_at`) carry no information
used by any command and are omitted.
-/

namespace SystemBot

/-- Python `dict` update: replace the value of an existing key in place,
or append the new binding at the end (CPython insertion-order semantics,
which is also the order `json.dumps` serialises). -/
def dictSet {α : Type} : List (String × α) → String → α → List (String × α)
  | [], k, v => [(k, v)]
  | (k', v') :: rest, k, v =>
      if k' == k then (k, v) :: rest else (k', v') :: dictSet rest k v

/-- Python `key in dict`. -/
def dictMem {α : Type} (d : List (String × α)) (k : String) : Bool :=
  (d.lookup k).isSome

/-- Python `dict.get(key, default)`. -/
def dictGetD {α : Type} (d : List (String × α)) (k : String) (v : α) : α :=
  (d.lookup k).getD v

/-- Python `str.strip()`: drop leading and trailing whitespace. -/
def pyStrip (s : String) : String :=
  ⟨((s.data.dropWhile Char.isWhitespace).reverse.dropWhile Char.isWhitespace).reverse⟩

/-- Python `s.lower().strip()` as applied to command arguments. -/
def lowerStrip (s : String) : String := pyStrip ⟨s.data.map Char.toLower⟩

/-- Python `s.upper().strip()` as applied to command arguments. -/
def upperStrip (s : String) : String := pyStrip ⟨s.data.map Char.toUpper⟩

/-- Insert into an already sorted list, keeping equal keys stable. -/
def insertSorted {α : Type} (le : α → α → Bool) (x : α) : List α → List α
  | [] => [x]
  | y :: ys => if le x y && !le y x then x :: y :: ys else y :: insertSorted le x ys

/-- Stable sort (models the ORDER BY of the SELECT queries). -/
def sortLe {α : Type} (le : α → α → Bool) : List α → List α
  | [] => []
  | x :: xs => insertSorted le x (sortLe le xs)

/-- Lexicographic comparison of character lists. -/
def charListLe : List Char → List Char → Bool
  | [], _ => true
  | _ :: _, [] => false
  | a :: as, b :: bs => if a < b then true else if b < a then false else charListLe as bs

/-- Lexicographic `a <= b` on strings (the collation ORDER BY applies). -/
def strLe (a b : String) : Bool := charListLe a.data b.data

/-! ### Schedule policy (`is_open_now`, bot.py lines 30-42) -/

/-- A CPython `datetime.time` value. -/
structure PyTime where
  hour : Nat
  minute : Nat
  second : Nat
  microsecond : Nat
deriving DecidableEq

/-- Field bounds CPython guarantees for every constructed `time`. -/
def PyTime.wf (t : PyTime) : Prop :=
  t.hour < 24 ∧ t.minute < 60 ∧ t.second < 60 ∧ t.microsecond < 1000000

instance (t : PyTime) : Decidable t.wf := by
  unfold PyTime.wf; infer_instance

/-- CPython compares `time` objects lexicographically by
(hour, minute, second, microsecond); this is `a <= b`. -/
def pyTimeLe (a b : PyTime) : Bool :=
  decide (a.hour < b.hour) ||
    (a.hour == b.hour &&
      (decide (a.minute < b.minute) ||
        (a.minute == b.minute &&
          (decide (a.second < b.second) ||
            (a.second == b.second && decide (a.microsecond ≤ b.microsecond))))))

/-- CPython `a < b` on `time` objects. -/
def pyTimeLt (a b : PyTime) : Bool :=
  decide (a.hour < b.hour) ||
    (a.hour == b.hour &&
      (decide (a.minute < b.minute) ||
        (a.minute == b.minute &&
          (decide (a.second < b.second) ||
            (a.second == b.second && decide (a.microsecond < b.microsecond))))))

/-- Python `time(h, m)`. -/
def mkTime (h m : Nat) : PyTime := ⟨h, m, 0, 0⟩

/-- The schedule text the bot appends to every closed refusal
(`OPEN_HOURS_TEXT`, bot.py line 28). -/
def OPEN_HOURS_TEXT : String :=
  "Öffnungszeiten: Mo–Do 14:00–23:00 | Fr–So 12:00–01:00 (Europe/Berlin)"

/-- `is_open_now` (bot.py lines 30-42).  `weekday` follows Python
(`Mon=0 .. Sun=6`) and `t` is `dt.time()` in the fixed timezone. -/
def is_open_now (weekday : Nat) (t : PyTime) : Bool :=
  if weekday == 0 || weekday == 1 || weekday == 2 || weekday == 3 then
    pyTimeLe (mkTime 14 0) t && pyTimeLt t (mkTime 23 0)
  else if weekday == 4 || weekday == 5 || weekday == 6 then
    pyTimeLe (mkTime 12 0) t || pyTimeLt t (mkTime 1 0)
  else
    false

/-- Total microseconds since midnight; the "local time" a wall-clock
reading denotes. -/
def PyTime.toMicros (t : PyTime) : Nat :=
  ((t.hour * 60 + t.minute) * 60 + t.second) * 1000000 + t.microsecond

/-- The weekly table exactly as the specification words it: Monday–Thursday
open iff local time ∈ [14:00, 23:00); Friday–Sunday open iff local time
≥ 12:00 or < 01:00. -/
def spec_open_table (weekday : Nat) (t : PyTime) : Bool :=
  if weekday ≤ 3 then
    decide ((mkTime 14 0).toMicros ≤ t.toMicros ∧ t.toMicros < (mkTime 23 0).toMicros)
  else
    decide ((mkTime 12 0).toMicros ≤ t.toMicros ∨ t.toMicros < (mkTime 1 0).toMicros)

/-! ### Data model (bot.py lines 63-97 and the tables of `db_init`) -/

/-- One entry of `STATION_TYPES` (bot.py lines 63-69). -/
structure TypeInfo where
  min_players : Int
  notes : String
deriving DecidableEq

/-- `STATION_TYPES` (bot.py lines 63-69). -/
def STATION_TYPES : List (String × TypeInfo) :=
  [("CAMP", ⟨1, "Camp (mind. 1 Spieler)"⟩),
   ("DORF", ⟨4, "Dorf (mind. 4 Spieler)"⟩),
   ("SIEDLUNG", ⟨10, "Siedlung (10 Spieler oder 8 Spieler-Fraktion)"⟩),
   ("AUSSENPOSTEN", ⟨5, "Außenposten (mind. 5 Spieler-Fraktion)"⟩),
   ("STRATEGISCH", ⟨5, "Strategischer Punkt (Capture + 48h Schutz)"⟩)]

/-- `RESOURCE_ZONES` (bot.py line 70). -/
def RESOURCE_ZONES : List String := ["lager", "verarbeitung", "bauhaus", "produktion"]

/-- A row of the `factions` table. -/
structure Faction where
  name : String
  side : String
  playable : Bool
  description : String
deriving DecidableEq

/-- `DEFAULT_FACTIONS` (bot.py lines 72-97), seeded into the store at startup. -/
def DEFAULT_FACTIONS : List (String × Faction) :=
  [("LDF", ⟨"Livonian Defence Forces", "state", true,
            "Staat/Verteidiger. Ordnung, Versorgung, Struktur."⟩),
   ("CMC", ⟨"Chernarus Mining Corporation", "invader", true,
            "Invasoren/Corporate. Expansion, Kontrolle, Ressourcen."⟩),
   ("IND", ⟨"Unabhängige", "independent", true,
            "Weder Staat noch CMC. Eigene Agenda, flexibel."⟩),
   ("UN", ⟨"United Nations", "neutral_team", false,
           "Team-Fraktion. Neutral, fördert Spawn & IC-Aktionen."⟩)]

/-- The per-zone item counters of one station: JSONB object mapping an item
key to its quantity. -/
abbrev ItemMap := List (String × Int)

/-- The whole `resources` JSONB column: zone name to item counters. -/
abbrev Ledger := List (String × ItemMap)

/-- A row of the `stations` table (`created_at` omitted, unused). -/
structure Station where
  name : String
  stype : String
  owner_faction : String
  condition : Int
  protection_hours : Int
  resources : Ledger
deriving DecidableEq

/-- A row of the `players` table (`updated_at` omitted, unused). -/
structure Player where
  name : String
  faction_key : String
deriving DecidableEq

/-- The persistent state: the four tables keyed by their primary keys.
`station_members` is the set of (station_id, user_id) pairs. -/
structure DB where
  factions : List (String × Faction)
  players : List (String × Player)
  stations : List (String × Station)
  station_members : List (String × String)
deriving DecidableEq

/-! ### State-store primitives (bot.py lines 160-263) -/

/-- `station_exists` (bot.py lines 183-187). -/
def station_exists (db : DB) (station_id : String) : Bool :=
  (db.stations.lookup station_id).isSome

/-- `default_resources` (bot.py lines 189-190): every zone present, empty. -/
def default_resources : Ledger := RESOURCE_ZONES.map (fun z => (z, []))

/-- `create_station_db` (bot.py lines 192-198): INSERT with `condition`
fixed at 100 and fresh default resources. -/
def create_station_db (db : DB) (station_id name stype owner : String)
    (protection : Int) : DB :=
  { db with stations := dictSet db.stations station_id
                          ⟨name, stype, owner, 100, protection, default_resources⟩ }

/-- `set_player_faction` (bot.py lines 171-181): upsert of the player row. -/
def set_player_faction (db : DB) (user_id name faction_key : String) : DB :=
  { db with players := dictSet db.players user_id ⟨name, faction_key⟩ }

/-- `UPDATE stations SET ... WHERE station_id = $1`: rewrite the matching
row with `f`, leave every other row alone. -/
def updateStationRow (db : DB) (station_id : String) (f : Station → Station) : DB :=
  { db with stations :=
      db.stations.map (fun p => if p.1 == station_id then (p.1, f p.2) else p) }

/-- `update_station_type_db` (bot.py lines 239-242). -/
def update_station_type_db (db : DB) (station_id stype : String) : DB :=
  updateStationRow db station_id (fun st => { st with stype := stype })

/-- `update_station_condition_db` (bot.py lines 244-247). -/
def update_station_condition_db (db : DB) (station_id : String) (condition : Int) : DB :=
  updateStationRow db station_id (fun st => { st with condition := condition })

/-- `update_station_protection_db` (bot.py lines 249-252). -/
def update_station_protection_db (db : DB) (station_id : String) (hours : Int) : DB :=
  updateStationRow db station_id (fun st => { st with protection_hours := hours })

/-- `get_resources_db` (bot.py lines 254-258). -/
def get_resources_db (db : DB) (station_id : String) : Ledger :=
  match db.stations.lookup station_id with
  | some st => st.resources
  | none => default_resources

/-- `set_resources_db` (bot.py lines 260-263). -/
def set_resources_db (db : DB) (station_id : String) (res : Ledger) : DB :=
  updateStationRow db station_id (fun st => { st with resources := res })

/-- `list_station_members_db` (bot.py lines 219-223), ORDER BY user_id. -/
def list_station_members_db (db : DB) (station_id : String) : List String :=
  sortLe strLe
    ((db.station_members.filter (fun p => p.1 == station_id)).map Prod.snd)

/-- `add_station_member_db` (bot.py lines 225-232): ON CONFLICT DO NOTHING. -/
def add_station_member_db (db : DB) (station_id user_id : String) : DB :=
  if db.station_members.contains (station_id, user_id) then db
  else { db with station_members := db.station_members ++ [(station_id, user_id)] }

/-- `remove_station_member_db` (bot.py lines 234-237). -/
def remove_station_member_db (db : DB) (station_id user_id : String) : DB :=
  { db with station_members :=
      db.station_members.filter (fun p => !(p.1 == station_id && p.2 == user_id)) }

/-- `fetch_factions` (bot.py lines 160-164), ORDER BY key. -/
def fetch_factions (db : DB) : List (String × Faction) :=
  sortLe (fun a b => strLe a.1 b.1) db.factions

/-- `list_stations_db` (bot.py lines 200-208): id, name, type, owner and
live member count, ORDER BY station_id. -/
def list_stations_db (db : DB) : List (String × Station × Nat) :=
  (sortLe (fun a b => strLe a.1 b.1) db.stations).map
    (fun p => (p.1, p.2, (db.station_members.filter (fun m => m.1 == p.1)).length))

/-! ### Command outcomes

One constructor per distinct `send_message` call site of bot.py, carrying
the data that call site interpolates into its message. -/

inductive Reply where
  | closed (text : String)
  | staffOnly
  | factionList (rows : List (String × Faction))
  | unknownFaction
  | notPlayable
  | joined (faction : String)
  | unassigned
  | yourFaction (key : String)
  | noStations
  | stationList (rows : List (String × Station × Nat))
  | invalidType
  | belowMinimum (stype : String) (minp : Int)
  | alreadyExists
  | stationCreated (name stype owner station_id : String) (protection : Int)
  | notFound
  | stationInfo (station_id name stype owner : String) (memberCount : Nat)
      (condition protection : Int)
  | noMembers
  | membersList (station_id : String) (members : List String)
  | memberAdded (user_id : String)
  | memberRemoved (user_id : String)
  | typeSet (station_id stype : String)
  | conditionSet (station_id : String) (condition : Int)
  | protectionSet (station_id : String) (hours : Int)
  | resourceShow (station_id : String) (res : Ledger)
  | invalidZone
  | addOk (item zone : String) (newQuantity : Int)
  | takeOk (item zone : String) (newQuantity : Int)
deriving DecidableEq

/-- The full closed-refusal message of `require_open` (bot.py lines 48-51). -/
def closedMessage : String :=
  "🔒 Server ist aktuell geschlossen.\n" ++ OPEN_HOURS_TEXT

/-! ### Command bodies (the code after the `require_open` / `is_staff`
gates of each slash command, bot.py lines 299-642) -/

/-- Body of `/factions` (bot.py lines 299-311). -/
def factions_core (db : DB) : Reply × DB :=
  (.factionList (fetch_factions db), db)

/-- Body of `/join_faction` (bot.py lines 313-331). -/
def join_faction_core (db : DB) (user_id user_name faction : String) : Reply × DB :=
  let faction := upperStrip faction
  match (fetch_factions db).lookup faction with
  | none => (.unknownFaction, db)
  | some f =>
      if !f.playable then (.notPlayable, db)
      else (.joined faction, set_player_faction db user_id user_name faction)

/-- Body of `/whoami` (bot.py lines 333-345). -/
def whoami_core (db : DB) (user_id : String) : Reply × DB :=
  match db.players.lookup user_id with
  | none => (.unassigned, db)
  | some p => (.yourFaction p.faction_key, db)

/-- Body of `/stations` (bot.py lines 347-363). -/
def stations_core (db : DB) : Reply × DB :=
  let rows := list_stations_db db
  if rows.isEmpty then (.noStations, db) else (.stationList rows, db)

/-- Body of `/create_station` (bot.py lines 373-410). -/
def create_station_core (db : DB) (station_id name station_type owner_faction : String)
    (member_count : Int) : Reply × DB :=
  let station_id := lowerStrip station_id
  let station_type := upperStrip station_type
  let owner_faction := upperStrip owner_faction
  match STATION_TYPES.lookup station_type with
  | none => (.invalidType, db)
  | some info =>
      if member_count < info.min_players then
        (.belowMinimum station_type info.min_players, db)
      else if station_exists db station_id then
        (.alreadyExists, db)
      else
        let protection : Int := if station_type == "STRATEGISCH" then 48 else 0
        (.stationCreated name station_type owner_faction station_id protection,
         create_station_db db station_id name station_type owner_faction protection)

/-- Body of `/station_info` (bot.py lines 412-434). -/
def station_info_core (db : DB) (station_id : String) : Reply × DB :=
  let station_id := lowerStrip station_id
  match db.stations.lookup station_id with
  | none => (.notFound, db)
  | some st =>
      (.stationInfo station_id st.name st.stype st.owner_faction
        (list_station_members_db db station_id).length st.condition st.protection_hours, db)

/-- Body of `/station_members` (bot.py lines 436-457). -/
def station_members_core (db : DB) (station_id : String) : Reply × DB :=
  let station_id := lowerStrip station_id
  if !station_exists db station_id then (.notFound, db)
  else
    let members := list_station_members_db db station_id
    if members.isEmpty then (.noMembers, db) else (.membersList station_id members, db)

/-- Body of `/station_add_member` (bot.py lines 459-474). -/
def station_add_member_core (db : DB) (user_id station_id : String) : Reply × DB :=
  let station_id := lowerStrip station_id
  if !station_exists db station_id then (.notFound, db)
  else (.memberAdded user_id, add_station_member_db db station_id user_id)

/-- Body of `/station_remove_member` (bot.py lines 476-491). -/
def station_remove_member_core (db : DB) (user_id station_id : String) : Reply × DB :=
  let station_id := lowerStrip station_id
  if !station_exists db station_id then (.notFound, db)
  else (.memberRemoved user_id, remove_station_member_db db station_id user_id)

/-- Body of `/station_set_type` (bot.py lines 493-518): validate, UPDATE the
type, then re-read and raise protection to 48 only for STRATEGISCH with a
current value of 0. -/
def station_set_type_core (db : DB) (station_id station_type : String) : Reply × DB :=
  let station_id := lowerStrip station_id
  let station_type := upperStrip station_type
  if !dictMem STATION_TYPES station_type then (.invalidType, db)
  else if !station_exists db station_id then (.notFound, db)
  else
    let db := update_station_type_db db station_id station_type
    let db :=
      match db.stations.lookup station_id with
      | some row =>
          if station_type == "STRATEGISCH" && row.protection_hours == 0 then
            update_station_protection_db db station_id 48
          else db
      | none => db
    (.typeSet station_id station_type, db)

/-- Body of `/station_set_condition` (bot.py lines 520-536). -/
def station_set_condition_core (db : DB) (station_id : String) (condition : Int) :
    Reply × DB :=
  let station_id := lowerStrip station_id
  if !station_exists db station_id then (.notFound, db)
  else
    let condition := max 0 (min 100 condition)
    (.conditionSet station_id condition, update_station_condition_db db station_id condition)

/-- Body of `/station_set_protection` (bot.py lines 538-554). -/
def station_set_protection_core (db : DB) (station_id : String) (hours : Int) :
    Reply × DB :=
  let station_id := lowerStrip station_id
  if !station_exists db station_id then (.notFound, db)
  else
    let hours := max 0 hours
    (.protectionSet station_id hours, update_station_protection_db db station_id hours)

/-- Body of `/resource_show` (bot.py lines 556-582). -/
def resource_show_core (db : DB) (station_id : String) : Reply × DB :=
  let station_id := lowerStrip station_id
  if !station_exists db station_id then (.notFound, db)
  else (.resourceShow station_id (get_resources_db db station_id), db)

/-- The in-memory mutation `/resource_add` performs between its
`get_resources_db` read and its `set_resources_db` write
(bot.py lines 605-609): ensure the zone key, then bump the item counter. -/
def add_rmw (res : Ledger) (zone item : String) (amount : Int) : Ledger :=
  let res := if dictMem res zone then res else dictSet res zone []
  let zoneMap := dictGetD res zone []
  let current := dictGetD zoneMap item 0
  dictSet res zone (dictSet zoneMap item (current + amount))

/-- The in-memory mutation `/resource_take` performs between its read and
its write (bot.py lines 635-639): the counter is floored at 0. -/
def take_rmw (res : Ledger) (zone item : String) (amount : Int) : Ledger :=
  let res := if dictMem res zone then res else dictSet res zone []
  let zoneMap := dictGetD res zone []
  let current := dictGetD zoneMap item 0
  dictSet res zone (dictSet zoneMap item (max 0 (current - amount)))

/-- Body of `/resource_add` (bot.py lines 584-612). -/
def resource_add_core (db : DB) (station_id zone item : String) (amount : Int) :
    Reply × DB :=
  let station_id := lowerStrip station_id
  let zone := lowerStrip zone
  let item := lowerStrip item
  let amount := max 0 amount
  if !RESOURCE_ZONES.contains zone then (.invalidZone, db)
  else if !station_exists db station_id then (.notFound, db)
  else
    let res := get_resources_db db station_id
    let current := dictGetD (dictGetD res zone []) item 0
    (.addOk item zone (current + amount),
     set_resources_db db station_id (add_rmw res zone item amount))

/-- Body of `/resource_take` (bot.py lines 614-642). -/
def resource_take_core (db : DB) (station_id zone item : String) (amount : Int) :
    Reply × DB :=
  let station_id := lowerStrip station_id
  let zone := lowerStrip zone
  let item := lowerStrip item
  let amount := max 0 amount
  if !RESOURCE_ZONES.contains zone then (.invalidZone, db)
  else if !station_exists db station_id then (.notFound, db)
  else
    let res := get_resources_db db station_id
    let current := dictGetD (dictGetD res zone []) item 0
    (.takeOk item zone (max 0 (current - amount)),
     set_resources_db db station_id (take_rmw res zone item amount))

/-! ### Gates and command dispatch

Every slash command of bot.py opens with
`if not await require_open(interaction): return`; staff commands then check
`is_staff`.  `isOpen` is the value of `is_open_now(datetime.now(TZ))` at the
moment of invocation and `isStaff` the caller's administrator flag —
both are supplied by the out-of-scope transport layer. -/

/-- Wrap a command body behind `require_open` only. -/
def gated (isOpen : Bool) (db : DB) (body : Reply × DB) : Reply × DB :=
  if !isOpen then (.closed closedMessage, db) else body

/-- Wrap a command body behind `require_open` then `is_staff`. -/
def gatedStaff (isOpen isStaff : Bool) (db : DB) (body : Reply × DB) : Reply × DB :=
  if !isOpen then (.closed closedMessage, db)
  else if !isStaff then (.staffOnly, db)
  else body

/-- One invocation of any state-reading or state-mutating slash command
exposed by bot.py (everything except `/ping`, which touches no state). -/
inductive Cmd where
  | factions
  | join_faction (user_id user_name faction : String)
  | whoami (user_id : String)
  | stations
  | create_station (station_id name station_type owner_faction : String) (member_count : Int)
  | station_info (station_id : String)
  | station_members (station_id : String)
  | station_add_member (user_id station_id : String)
  | station_remove_member (user_id station_id : String)
  | station_set_type (station_id station_type : String)
  | station_set_condition (station_id : String) (condition : Int)
  | station_set_protection (station_id : String) (hours : Int)
  | resource_show (station_id : String)
  | resource_add (station_id zone item : String) (amount : Int)
  | resource_take (station_id zone item : String) (amount : Int)

/-- Run one command invocation, gates included, exactly as bot.py orders
its checks. -/
def runCmd (c : Cmd) (isOpen isStaff : Bool) (db : DB) : Reply × DB :=
  match c with
  | .factions => gated isOpen db (factions_core db)
  | .join_faction uid uname f => gated isOpen db (join_faction_core db uid uname f)
  | .whoami uid => gated isOpen db (whoami_core db uid)
  | .stations => gated isOpen db (stations_core db)
  | .create_station sid name st owner mc =>
      gatedStaff isOpen isStaff db (create_station_core db sid name st owner mc)
  | .station_info sid => gated isOpen db (station_info_core db sid)
  | .station_members sid => gated isOpen db (station_members_core db sid)
  | .station_add_member uid sid =>
      gatedStaff isOpen isStaff db (station_add_member_core db uid sid)
  | .station_remove_member uid sid =>
      gatedStaff isOpen isStaff db (station_remove_member_core db uid sid)
  | .station_set_type sid st =>
      gatedStaff isOpen isStaff db (station_set_type_core db sid st)
  | .station_set_condition sid c =>
      gatedStaff isOpen isStaff db (station_set_condition_core db sid c)
  | .station_set_protection sid h =>
      gatedStaff isOpen isStaff db (station_set_protection_core db sid h)
  | .resource_show sid => gated isOpen db (resource_show_core db sid)
  | .resource_add sid z i a =>
      gatedStaff isOpen isStaff db (resource_add_core db sid z i a)
  | .resource_take sid z i a =>
      gatedStaff isOpen isStaff db (resource_take_core db sid z i a)

/-- True exactly for the two commands whose stated purpose is to write the
resource ledger. -/
def Cmd.isResourceMutation : Cmd → Bool
  | .resource_add _ _ _ _ => true
  | .resource_take _ _ _ _ => true
  | _ => false

/-- The resource ledger a reader of the store sees for station `k`. -/
def resources_view (db : DB) (k : String) : Option Ledger :=
  (db.stations.lookup k).map Station.resources

/-- Every station existing in `db` reads back in the second store with its
ledger byte-for-byte unchanged. -/
def ledger_preserved (db db2 : DB) : Prop :=
  ∀ k st, db.stations.lookup k = some st → resources_view db2 k = some st.resources

end SystemBot


namespace SystemBot

/-! ### Theorems -/

/-- CPython's lexicographic `time` comparison agrees with comparing total
microseconds whenever both operands satisfy the field bounds. -/
theorem pyTimeLe_eq (a b : PyTime) (ha : a.wf) (hb : b.wf) :
    pyTimeLe a b = decide (a.toMicros ≤ b.toMicros) := by
  obtain ⟨ha1, ha2, ha3, ha4⟩ := ha
  obtain ⟨hb1, hb2, hb3, hb4⟩ := hb
  rw [Bool.eq_iff_iff]
  simp only [pyTimeLe, PyTime.toMicros, Bool.or_eq_true, Bool.and_eq_true,
    decide_eq_true_eq, beq_iff_eq]
  omega

/-- Strict variant of `pyTimeLe_eq`. -/
theorem pyTimeLt_eq (a b : PyTime) (ha : a.wf) (hb : b.wf) :
    pyTimeLt a b = decide (a.toMicros < b.toMicros) := by
  obtain ⟨ha1, ha2, ha3, ha4⟩ := ha
  obtain ⟨hb1, hb2, hb3, hb4⟩ := hb
  rw [Bool.eq_iff_iff]
  simp only [pyTimeLt, PyTime.toMicros, Bool.or_eq_true, Bool.and_eq_true,
    decide_eq_true_eq, beq_iff_eq]
  omega

/-- C2: for every timestamp in the fixed timezone (any weekday and any
well-formed wall-clock time), `is_open_now` is true exactly when the weekly
table of the specification says open — Monday–Thursday iff the local time is
in [14:00, 23:00), Friday–Sunday iff it is ≥ 12:00 or < 01:00; in particular
Wed 15:00 is open, Wed 23:00 is closed, Sat 00:30 is open and Sat 11:59 is
closed. -/
theorem is_open_matches_weekly_table :
    (∀ (weekday : Nat) (t : PyTime), weekday < 7 → t.wf →
        is_open_now weekday t = spec_open_table weekday t) ∧
      is_open_now 2 (mkTime 15 0) = true ∧
      is_open_now 2 (mkTime 23 0) = false ∧
      is_open_now 5 ⟨0, 30, 0, 0⟩ = true ∧
      is_open_now 5 ⟨11, 59, 0, 0⟩ = false := by
  refine ⟨?_, by decide, by decide, by decide, by decide⟩
  intro w t hw hwf
  by_cases h03 : w ≤ 3
  · have hcond : (w == 0 || w == 1 || w == 2 || w == 3) = true := by
      simp only [Bool.or_eq_true, beq_iff_eq]; omega
    simp only [is_open_now, spec_open_table, hcond, if_pos h03, if_true]
    rw [pyTimeLe_eq (mkTime 14 0) t (by decide) hwf,
      pyTimeLt_eq t (mkTime 23 0) hwf (by decide)]
    simp
  · have hcond : (w == 0 || w == 1 || w == 2 || w == 3) = false := by
      simp only [Bool.or_eq_false_iff, beq_eq_false_iff_ne, ne_eq]; omega
    have hcond2 : (w == 4 || w == 5 || w == 6) = true := by
      simp only [Bool.or_eq_true, beq_iff_eq]; omega
    simp only [is_open_now, spec_open_table, hcond, hcond2, if_neg h03,
      Bool.false_eq_true, if_false, if_true]
    rw [pyTimeLe_eq (mkTime 12 0) t (by decide) hwf,
      pyTimeLt_eq t (mkTime 1 0) hwf (by decide)]
    simp

/-- Witness: the equivalence of C2 instantiated at Wednesday 15:00. -/
theorem is_open_matches_weekly_table_witness :
    is_open_now 2 (mkTime 15 0) = spec_open_table 2 (mkTime 15 0) :=
  is_open_matches_weekly_table.1 2 (mkTime 15 0) (by decide) (by decide)

/-- Looking up the key just written by `dictSet` yields the written value. -/
theorem dictSet_lookup_self {α : Type} (d : List (String × α)) (k : String) (v : α) :
    (dictSet d k v).lookup k = some v := by
  induction d with
  | nil => simp [dictSet]
  | cons p rest ih =>
      obtain ⟨k', v'⟩ := p
      by_cases h : k' == k
      · simp [dictSet, h, List.lookup]
      · simp only [dictSet, h, Bool.false_eq_true, if_false, List.lookup]
        rw [show (k == k') = false by
          cases eq_or_ne k k' with
          | inl heq => exact absurd (beq_iff_eq.mpr heq.symm) (by simpa using h)
          | inr hne => exact beq_eq_false_iff_ne.mpr hne]
        exact ih

/-- `dictSet` leaves the value found under every other key unchanged. -/
theorem dictSet_lookup_ne {α : Type} (d : List (String × α)) (k k' : String) (v : α)
    (h : k' ≠ k) : (dictSet d k v).lookup k' = d.lookup k' := by
  induction d with
  | nil => simp [dictSet, List.lookup, beq_eq_false_iff_ne.mpr h]
  | cons p rest ih =>
      obtain ⟨k0, v0⟩ := p
      by_cases h0 : k0 == k
      · have : (k' == k0) = false := by
          refine beq_eq_false_iff_ne.mpr ?_
          intro heq
          exact h (heq.trans (beq_iff_eq.mp h0))
        simp [dictSet, h0, List.lookup, this, beq_eq_false_iff_ne.mpr h]
      · simp only [dictSet, h0, Bool.false_eq_true, if_false, List.lookup]
        cases hk : k' == k0 with
        | true => rfl
        | false => exact ih

/-- C1: `create_station_core` validates the station type against the five
known types (with minima CAMP 1, DORF 4, SIEDLUNG 10, AUSSENPOSTEN 5,
STRATEGISCH 5) and the reported member count against the per-type minimum,
fails with the invalid-type, below-minimum or already-exists reply (leaving
the store untouched) when the normalized type is unknown, the count is below
the minimum, or the lowercased station id is taken, and otherwise inserts
the station with `condition = 100` and `protection_hours` 48 for
STRATEGISCH, else 0. -/
theorem create_station_correct (db : DB)
    (station_id name station_type owner_faction : String) (member_count : Int) :
    ((STATION_TYPES.lookup "CAMP").map TypeInfo.min_players = some 1 ∧
     (STATION_TYPES.lookup "DORF").map TypeInfo.min_players = some 4 ∧
     (STATION_TYPES.lookup "SIEDLUNG").map TypeInfo.min_players = some 10 ∧
     (STATION_TYPES.lookup "AUSSENPOSTEN").map TypeInfo.min_players = some 5 ∧
     (STATION_TYPES.lookup "STRATEGISCH").map TypeInfo.min_players = some 5) ∧
    (STATION_TYPES.lookup (upperStrip station_type) = none →
      create_station_core db station_id name station_type owner_faction member_count =
        (.invalidType, db)) ∧
    (∀ info, STATION_TYPES.lookup (upperStrip station_type) = some info →
      member_count < info.min_players →
      create_station_core db station_id name station_type owner_faction member_count =
        (.belowMinimum (upperStrip station_type) info.min_players, db)) ∧
    (∀ info, STATION_TYPES.lookup (upperStrip station_type) = some info →
      info.min_players ≤ member_count →
      station_exists db (lowerStrip station_id) = true →
      create_station_core db station_id name station_type owner_faction member_count =
        (.alreadyExists, db)) ∧
    (∀ info, STATION_TYPES.lookup (upperStrip station_type) = some info →
      info.min_players ≤ member_count →
      station_exists db (lowerStrip station_id) = false →
      create_station_core db station_id name station_type owner_faction member_count =
        (.stationCreated name (upperStrip station_type) (upperStrip owner_faction)
           (lowerStrip station_id)
           (if upperStrip station_type == "STRATEGISCH" then 48 else 0),
         create_station_db db (lowerStrip station_id) name (upperStrip station_type)
           (upperStrip owner_faction)
           (if upperStrip station_type == "STRATEGISCH" then 48 else 0)) ∧
      (create_station_core db station_id name station_type owner_faction
          member_count).2.stations.lookup (lowerStrip station_id) =
        some ⟨name, upperStrip station_type, upperStrip owner_faction, 100,
          if upperStrip station_type == "STRATEGISCH" then 48 else 0,
          default_resources⟩) := by
  refine ⟨by decide, ?_, ?_, ?_, ?_⟩
  · intro h
    simp [create_station_core, h]
  · intro info h hlt
    simp [create_station_core, h, hlt]
  · intro info h hge hex
    have hnlt : ¬member_count < info.min_players := not_lt.mpr hge
    simp [create_station_core, h, hnlt, hex]
  · intro info h hge hex
    have hnlt : ¬member_count < info.min_players := not_lt.mpr hge
    have hmain :
        create_station_core db station_id name station_type owner_faction member_count =
          (.stationCreated name (upperStrip station_type) (upperStrip owner_faction)
             (lowerStrip station_id)
             (if upperStrip station_type == "STRATEGISCH" then 48 else 0),
           create_station_db db (lowerStrip station_id) name (upperStrip station_type)
             (upperStrip owner_faction)
             (if upperStrip station_type == "STRATEGISCH" then 48 else 0)) := by
      simp [create_station_core, h, hnlt, hex]
    refine ⟨hmain, ?_⟩
    rw [hmain]
    simp only [create_station_db]
    exact dictSet_lookup_self _ _ _

/-- Witness: C1 applied to a concrete creation of a STRATEGISCH station on
an empty store. -/
theorem create_station_correct_witness :
    create_station_core ⟨[], [], [], []⟩ " Nadbor_01 " "Nadbor" "strategisch" "ldf" 5 =
      (Reply.stationCreated "Nadbor" "STRATEGISCH" "LDF" "nadbor_01" 48,
       create_station_db ⟨[], [], [], []⟩ "nadbor_01" "Nadbor" "STRATEGISCH" "LDF" 48) :=
  ((create_station_correct ⟨[], [], [], []⟩ " Nadbor_01 " "Nadbor" "strategisch" "ldf"
      5).2.2.2.2 ⟨5, "Strategischer Punkt (Capture + 48h Schutz)"⟩
    (by decide) (by decide) (by decide)).1

/-- Effect of a row update on any later lookup: the row under the updated
key is rewritten with `f`, every other row reads back unchanged. -/
theorem updateStationRow_lookup (db : DB) (sid k : String) (f : Station → Station) :
    (updateStationRow db sid f).stations.lookup k =
      (db.stations.lookup k).map (fun v => if k == sid then f v else v) := by
  show (db.stations.map (fun p => if p.1 == sid then (p.1, f p.2) else p)).lookup k =
    (db.stations.lookup k).map (fun v => if k == sid then f v else v)
  induction db.stations with
  | nil => simp
  | cons p rest ih =>
      obtain ⟨k0, v0⟩ := p
      simp only [List.map_cons]
      cases h0 : (k0 == sid) with
      | true =>
          rw [if_pos rfl]
          cases hk : (k == k0) with
          | true =>
              have hks : (k == sid) = true := by
                rw [beq_iff_eq] at h0 hk ⊢
                exact hk.trans h0
              simp [List.lookup, hk, hks]
          | false =>
              simp only [List.lookup, hk]
              simpa using ih
      | false =>
          rw [if_neg (by simp)]
          cases hk : (k == k0) with
          | true =>
              have hks : (k == sid) = false := by
                rw [beq_iff_eq] at hk
                rw [beq_eq_false_iff_ne] at h0 ⊢
                exact hk ▸ h0
              simp [List.lookup, hk, hks]
          | false =>
              simp only [List.lookup, hk]
              simpa using ih

/-- Row updates do not change which stations exist. -/
theorem station_exists_updateStationRow (db : DB) (sid k : String) (f : Station → Station) :
    station_exists (updateStationRow db sid f) k = station_exists db k := by
  simp only [station_exists, updateStationRow_lookup]
  cases db.stations.lookup k <;> simp

/-- C3: `station_set_type_core` with the STRATEGISCH target raises
`protection_hours` to 48 exactly when the station currently has 0 and never
touches a non-zero value (one-way ratchet); an unknown type yields the
invalid-type reply and an unknown station the not-found reply, both leaving
the store untouched. -/
theorem set_type_protection_ratchet (db : DB) (station_id station_type : String) :
    (dictMem STATION_TYPES (upperStrip station_type) = false →
      station_set_type_core db station_id station_type = (.invalidType, db)) ∧
    (dictMem STATION_TYPES (upperStrip station_type) = true →
      station_exists db (lowerStrip station_id) = false →
      station_set_type_core db station_id station_type = (.notFound, db)) ∧
    (∀ st, upperStrip station_type = "STRATEGISCH" →
      db.stations.lookup (lowerStrip station_id) = some st →
      st.protection_hours = 0 →
      (station_set_type_core db station_id station_type).2.stations.lookup
          (lowerStrip station_id) =
        some { st with stype := "STRATEGISCH", protection_hours := 48 }) ∧
    (∀ st, upperStrip station_type = "STRATEGISCH" →
      db.stations.lookup (lowerStrip station_id) = some st →
      st.protection_hours ≠ 0 →
      (station_set_type_core db station_id station_type).2.stations.lookup
          (lowerStrip station_id) =
        some { st with stype := "STRATEGISCH" }) := by
  refine ⟨?_, ?_, ?_, ?_⟩
  · intro h
    simp [station_set_type_core, h]
  · intro hmem hex
    simp [station_set_type_core, hmem, hex]
  · intro st hty hrow hprot
    have hex : station_exists db (lowerStrip station_id) = true := by
      simp [station_exists, hrow]
    have hlook :
        (update_station_type_db db (lowerStrip station_id)
            "STRATEGISCH").stations.lookup (lowerStrip station_id) =
          some { st with stype := "STRATEGISCH" } := by
      simp [update_station_type_db, updateStationRow_lookup, hrow]
    simp only [station_set_type_core, hty]
    rw [show dictMem STATION_TYPES "STRATEGISCH" = true from rfl]
    simp only [Bool.not_true, Bool.false_eq_true, if_false, hex]
    rw [hlook]
    simp only [hprot, beq_self_eq_true, Bool.and_true, Bool.and_self]
    simp only [if_true]
    simp [update_station_protection_db, update_station_type_db,
      updateStationRow_lookup, hrow]
  · intro st hty hrow hprot
    have hex : station_exists db (lowerStrip station_id) = true := by
      simp [station_exists, hrow]
    have hlook :
        (update_station_type_db db (lowerStrip station_id)
            "STRATEGISCH").stations.lookup (lowerStrip station_id) =
          some { st with stype := "STRATEGISCH" } := by
      simp [update_station_type_db, updateStationRow_lookup, hrow]
    have hne : (({ st with stype := "STRATEGISCH" } : Station).protection_hours == 0)
        = false := beq_eq_false_iff_ne.mpr hprot
    simp only [station_set_type_core, hty]
    rw [show dictMem STATION_TYPES "STRATEGISCH" = true from rfl]
    simp only [Bool.not_true, Bool.false_eq_true, if_false, hex]
    rw [hlook]
    simp only [hne, Bool.and_false, Bool.false_eq_true, if_false]
    rw [hlook]

/-- Witness: C3 applied to a station with protection 0; the ratchet raises
it to 48. -/
theorem set_type_protection_ratchet_witness :
    (station_set_type_core
        ⟨[], [], [("s1", ⟨"Base", "CAMP", "LDF", 100, 0, default_resources⟩)], []⟩
        "s1" "strategisch").2.stations.lookup "s1" =
      some ⟨"Base", "STRATEGISCH", "LDF", 100, 48, default_resources⟩ :=
  (set_type_protection_ratchet
      ⟨[], [], [("s1", ⟨"Base", "CAMP", "LDF", 100, 0, default_resources⟩)], []⟩
      "s1" "strategisch").2.2.1 ⟨"Base", "CAMP", "LDF", 100, 0, default_resources⟩
    (by decide) (by decide) rfl

/-- `dictGetD` after `dictSet` on the same key reads the written value. -/
theorem dictGetD_dictSet_self {α : Type} (d : List (String × α)) (k : String) (v w : α) :
    dictGetD (dictSet d k v) k w = v := by
  simp [dictGetD, dictSet_lookup_self]

/-- Ensuring a zone key (the `if zone not in res` guard of the resource
commands) does not change what the zone reads back as. -/
theorem ensureZone_getD (res : Ledger) (z : String) :
    dictGetD (if dictMem res z then res else dictSet res z []) z [] =
      dictGetD res z [] := by
  cases h : dictMem res z with
  | true => rw [if_pos rfl]
  | false =>
      rw [if_neg (by simp)]
      have hnone : res.lookup z = none := by
        simp only [dictMem] at h
        exact Option.not_isSome_iff_eq_none.mp (by simp [h])
      simp [dictGetD, dictSet_lookup_self, hnone]

/-- What `take_rmw` leaves under the touched item: the floored difference. -/
theorem take_rmw_get (res : Ledger) (z i : String) (a : Int) :
    dictGetD (dictGetD (take_rmw res z i a) z []) i 0 =
      max 0 (dictGetD (dictGetD res z []) i 0 - a) := by
  unfold take_rmw
  rw [dictGetD_dictSet_self, dictGetD_dictSet_self, ensureZone_getD]

/-- Reading resources back right after writing them yields the written
ledger (for a station that exists). -/
theorem get_resources_set_resources (db : DB) (sid : String) (L : Ledger) (st : Station)
    (hrow : db.stations.lookup sid = some st) :
    get_resources_db (set_resources_db db sid L) sid = L := by
  simp [get_resources_db, set_resources_db, updateStationRow_lookup, hrow]

/-- C7: `join_faction_core` fails with the unknown-faction reply when the
normalized key is absent from the fetched registry and with the
not-playable reply when present but not playable — in both cases returning
the store, player records included, completely unchanged — and only for a
playable key does it invoke the player-faction upsert.  In the seeded
default catalogue, UN exists and is not playable. -/
theorem join_faction_validation (db : DB) (user_id user_name faction_key : String) :
    ((fetch_factions db).lookup (upperStrip faction_key) = none →
      join_faction_core db user_id user_name faction_key = (.unknownFaction, db)) ∧
    (∀ f, (fetch_factions db).lookup (upperStrip faction_key) = some f →
      f.playable = false →
      join_faction_core db user_id user_name faction_key = (.notPlayable, db)) ∧
    (∀ f, (fetch_factions db).lookup (upperStrip faction_key) = some f →
      f.playable = true →
      join_faction_core db user_id user_name faction_key =
        (.joined (upperStrip faction_key),
         set_player_faction db user_id user_name (upperStrip faction_key))) ∧
    (DEFAULT_FACTIONS.lookup "UN").map Faction.playable = some false := by
  refine ⟨?_, ?_, ?_, by decide⟩
  · intro h
    simp [join_faction_core, h]
  · intro f h hp
    simp [join_faction_core, h, hp]
  · intro f h hp
    simp [join_faction_core, h, hp]

/-- Witness: joining UN on the seeded registry fails as not playable with
the player table untouched. -/
theorem join_faction_validation_witness :
    join_faction_core ⟨DEFAULT_FACTIONS, [("7", ⟨"alice", "LDF"⟩)], [], []⟩
        "7" "alice" "un" =
      (.notPlayable, ⟨DEFAULT_FACTIONS, [("7", ⟨"alice", "LDF"⟩)], [], []⟩) :=
  (join_faction_validation ⟨DEFAULT_FACTIONS, [("7", ⟨"alice", "LDF"⟩)], [], []⟩
      "7" "alice" "un").2.1
    ⟨"United Nations", "neutral_team", false,
     "Team-Fraktion. Neutral, fördert Spawn & IC-Aktionen."⟩
    (by decide) rfl

/-- C10: once the type is known, the member count meets the minimum and the
lowercased id is free, `create_station_core` succeeds for every
`owner_faction` string whatsoever — the owner key is only uppercased and
trimmed, never validated against the faction registry, and ends up stored
verbatim on the new station. -/
theorem create_station_ignores_owner (db : DB)
    (station_id name station_type : String) (member_count : Int) (info : TypeInfo)
    (h : STATION_TYPES.lookup (upperStrip station_type) = some info)
    (hge : info.min_players ≤ member_count)
    (hfree : station_exists db (lowerStrip station_id) = false) :
    ∀ owner_faction : String,
      create_station_core db station_id name station_type owner_faction member_count =
        (.stationCreated name (upperStrip station_type) (upperStrip owner_faction)
           (lowerStrip station_id)
           (if upperStrip station_type == "STRATEGISCH" then 48 else 0),
         create_station_db db (lowerStrip station_id) name (upperStrip station_type)
           (upperStrip owner_faction)
           (if upperStrip station_type == "STRATEGISCH" then 48 else 0)) ∧
      ((create_station_core db station_id name station_type owner_faction
          member_count).2.stations.lookup (lowerStrip station_id)).map
          Station.owner_faction =
        some (upperStrip owner_faction) := by
  intro owner_faction
  have hnlt : ¬member_count < info.min_players := not_lt.mpr hge
  have hmain :
      create_station_core db station_id name station_type owner_faction member_count =
        (.stationCreated name (upperStrip station_type) (upperStrip owner_faction)
           (lowerStrip station_id)
           (if upperStrip station_type == "STRATEGISCH" then 48 else 0),
         create_station_db db (lowerStrip station_id) name (upperStrip station_type)
           (upperStrip owner_faction)
           (if upperStrip station_type == "STRATEGISCH" then 48 else 0)) := by
    simp [create_station_core, h, hnlt, hfree]
  refine ⟨hmain, ?_⟩
  rw [hmain]
  simp only [create_station_db]
  rw [dictSet_lookup_self]
  rfl

/-- Witness: C10 applied with an owner key that exists in no registry. -/
theorem create_station_ignores_owner_witness :
    create_station_core ⟨DEFAULT_FACTIONS, [], [], []⟩ "s1" "Base" "camp" "xyzq" 1 =
      (.stationCreated "Base" "CAMP" "XYZQ" "s1" 0,
       create_station_db ⟨DEFAULT_FACTIONS, [], [], []⟩ "s1" "Base" "CAMP" "XYZQ" 0) :=
  (create_station_ignores_owner ⟨DEFAULT_FACTIONS, [], [], []⟩ "s1" "Base" "camp" 1
    ⟨1, "Camp (mind. 1 Spieler)"⟩ (by decide) (by decide) (by decide) "xyzq").1

/-- C4: `resource_take_core` rejects an invalid zone and an unknown station
without touching the store; otherwise it clamps the requested amount to
≥ 0, persists and reports `max 0 (current - amount)`, so the stored counter
is never negative and over-taking silently floors at 0. -/
theorem resource_take_floors_at_zero (db : DB) (station_id zone item : String)
    (amount : Int) :
    (RESOURCE_ZONES.contains (lowerStrip zone) = false →
      resource_take_core db station_id zone item amount = (.invalidZone, db)) ∧
    (RESOURCE_ZONES.contains (lowerStrip zone) = true →
      station_exists db (lowerStrip station_id) = false →
      resource_take_core db station_id zone item amount = (.notFound, db)) ∧
    (∀ st, RESOURCE_ZONES.contains (lowerStrip zone) = true →
      db.stations.lookup (lowerStrip station_id) = some st →
      resource_take_core db station_id zone item amount =
        (.takeOk (lowerStrip item) (lowerStrip zone)
           (max 0 (dictGetD (dictGetD st.resources (lowerStrip zone) [])
              (lowerStrip item) 0 - max 0 amount)),
         set_resources_db db (lowerStrip station_id)
           (take_rmw st.resources (lowerStrip zone) (lowerStrip item) (max 0 amount))) ∧
      dictGetD (dictGetD (get_resources_db
          (resource_take_core db station_id zone item amount).2
          (lowerStrip station_id)) (lowerStrip zone) []) (lowerStrip item) 0 =
        max 0 (dictGetD (dictGetD st.resources (lowerStrip zone) [])
          (lowerStrip item) 0 - max 0 amount) ∧
      0 ≤ dictGetD (dictGetD (get_resources_db
          (resource_take_core db station_id zone item amount).2
          (lowerStrip station_id)) (lowerStrip zone) []) (lowerStrip item) 0) := by
  refine ⟨?_, ?_, ?_⟩
  · intro h
    have h' : lowerStrip zone ∉ RESOURCE_ZONES := by simpa using h
    simp [resource_take_core, h']
  · intro hz hex
    have hz' : lowerStrip zone ∈ RESOURCE_ZONES := by simpa using hz
    simp [resource_take_core, hz', hex]
  · intro st hz hrow
    have hex : station_exists db (lowerStrip station_id) = true := by
      simp [station_exists, hrow]
    have hres : get_resources_db db (lowerStrip station_id) = st.resources := by
      simp [get_resources_db, hrow]
    have hmain :
        resource_take_core db station_id zone item amount =
          (.takeOk (lowerStrip item) (lowerStrip zone)
             (max 0 (dictGetD (dictGetD st.resources (lowerStrip zone) [])
                (lowerStrip item) 0 - max 0 amount)),
           set_resources_db db (lowerStrip station_id)
             (take_rmw st.resources (lowerStrip zone) (lowerStrip item)
               (max 0 amount))) := by
      simp only [resource_take_core, hz, hex, if_true, Bool.not_true, Bool.false_eq_true,
        if_false, hres]
    refine ⟨hmain, ?_, ?_⟩
    · rw [hmain]
      rw [get_resources_set_resources db (lowerStrip station_id) _ st hrow]
      exact take_rmw_get st.resources (lowerStrip zone) (lowerStrip item) (max 0 amount)
    · rw [hmain]
      rw [get_resources_set_resources db (lowerStrip station_id) _ st hrow]
      rw [take_rmw_get st.resources (lowerStrip zone) (lowerStrip item) (max 0 amount)]
      exact le_max_left 0 _

/-- Witness: taking 50 wood when the counter holds 30 persists and reports
0 rather than failing or going negative. -/
theorem resource_take_floors_at_zero_witness :
    resource_take_core
        ⟨[], [], [("s1", ⟨"Base", "CAMP", "LDF", 100, 0,
          [("lager", [("wood", 30)]), ("verarbeitung", []), ("bauhaus", []),
           ("produktion", [])]⟩)], []⟩ "s1" "lager" "wood" 50 =
      (Reply.takeOk "wood" "lager" 0,
       set_resources_db
         ⟨[], [], [("s1", ⟨"Base", "CAMP", "LDF", 100, 0,
           [("lager", [("wood", 30)]), ("verarbeitung", []), ("bauhaus", []),
            ("produktion", [])]⟩)], []⟩ "s1"
         (take_rmw [("lager", [("wood", 30)]), ("verarbeitung", []), ("bauhaus", []),
           ("produktion", [])] "lager" "wood" 50)) :=
  ((resource_take_floors_at_zero
      ⟨[], [], [("s1", ⟨"Base", "CAMP", "LDF", 100, 0,
        [("lager", [("wood", 30)]), ("verarbeitung", []), ("bauhaus", []),
         ("produktion", [])]⟩)], []⟩ "s1" "lager" "wood" 50).2.2
    ⟨"Base", "CAMP", "LDF", 100, 0,
      [("lager", [("wood", 30)]), ("verarbeitung", []), ("bauhaus", []),
       ("produktion", [])]⟩ (by decide) rfl).1

/-- C8: whenever the schedule gate is closed at invocation time, every
state-reading or state-mutating slash command — staff or not, whatever its
arguments and whatever the stored state — replies with the closed refusal
carrying the human-readable schedule text and leaves the store exactly as
it was: the gate is consulted before any other processing, so the reply
does not depend on the store at all.  (`/ping`, the only ungated command,
touches no state.) -/
theorem closed_gate_refuses_all_commands :
    ∀ (c : Cmd) (isStaff : Bool) (db : DB),
      runCmd c false isStaff db = (Reply.closed closedMessage, db) ∧
      ∃ p, closedMessage = p ++ OPEN_HOURS_TEXT := by
  intro c staff db
  refine ⟨?_, ⟨"🔒 Server ist aktuell geschlossen.\n", rfl⟩⟩
  cases c <;> rfl

/-- C9: the read-modify-write of `resource_add` is NOT serialized — the
handler suspends between its ledger read and its ledger write, so two
overlapping `resource_add(s1, lager, wood, 1)` invocations can both read
the same snapshot before either writes.  Under that schedule
(read A, read B, write A, write B) the persisted counter ends at 1 instead
of 2: one update is lost.  Serialized execution of the same two commands
ends at 2. -/
theorem concurrent_add_lost_update :
    (dictGetD (dictGetD (get_resources_db
        (set_resources_db
          (set_resources_db
            ⟨[], [], [("s1", ⟨"Base", "CAMP", "LDF", 100, 0, default_resources⟩)], []⟩
            "s1"
            (add_rmw (get_resources_db
              ⟨[], [], [("s1", ⟨"Base", "CAMP", "LDF", 100, 0, default_resources⟩)], []⟩
              "s1") "lager" "wood" 1))
          "s1"
          (add_rmw (get_resources_db
            ⟨[], [], [("s1", ⟨"Base", "CAMP", "LDF", 100, 0, default_resources⟩)], []⟩
            "s1") "lager" "wood" 1))
        "s1") "lager" []) "wood" 0 = 1) ∧
    (dictGetD (dictGetD (get_resources_db
        (resource_add_core
          (resource_add_core
            ⟨[], [], [("s1", ⟨"Base", "CAMP", "LDF", 100, 0, default_resources⟩)], []⟩
            "s1" "lager" "wood" 1).2
          "s1" "lager" "wood" 1).2
        "s1") "lager" []) "wood" 0 = 2) ∧
    (1 : Int) ≠ 2 := by
  refine ⟨by decide, by decide, by decide⟩

/-- Overwriting the same key twice keeps only the second write. -/
theorem dictSet_dictSet {α : Type} (d : List (String × α)) (k : String) (x y : α) :
    dictSet (dictSet d k x) k y = dictSet d k y := by
  induction d with
  | nil => simp [dictSet]
  | cons p rest ih =>
      obtain ⟨k0, v0⟩ := p
      cases h0 : (k0 == k) with
      | true =>
          have hk : k = k0 := (beq_iff_eq.mp h0).symm
          subst hk
          simp [dictSet]
      | false =>
          simp [dictSet, h0, ih]

/-- Writing back the value a key already holds is a no-op on the dict. -/
theorem dictSet_self {α : Type} (d : List (String × α)) (k : String) (v : α)
    (h : d.lookup k = some v) : dictSet d k v = d := by
  induction d with
  | nil => simp [List.lookup] at h
  | cons p rest ih =>
      obtain ⟨k0, v0⟩ := p
      cases hk : (k == k0) with
      | true =>
          have hkk : k = k0 := beq_iff_eq.mp hk
          subst hkk
          simp only [List.lookup, beq_self_eq_true] at h
          have hv : v0 = v := by simpa using h
          subst hv
          simp [dictSet]
      | false =>
          have h0 : (k0 == k) = false := by
            rw [beq_eq_false_iff_ne] at hk ⊢
            exact fun e => hk e.symm
          simp only [List.lookup, hk] at h
          simp [dictSet, h0, ih h]

/-- C6 as stated is false: on a station whose lager holds no wood, adding 5
wood and then taking 5 wood does not return the ledger to its prior value —
an explicit `wood: 0` entry remains. -/
theorem add_take_roundtrip_counterexample :
    get_resources_db
        ((resource_take_core
          (resource_add_core
            ⟨[], [], [("s1", ⟨"Base", "CAMP", "LDF", 100, 0, default_resources⟩)], []⟩
            "s1" "lager" "wood" 5).2
          "s1" "lager" "wood" 5).2) "s1" ≠
      get_resources_db
        ⟨[], [], [("s1", ⟨"Base", "CAMP", "LDF", 100, 0, default_resources⟩)], []⟩
        "s1" := by
  decide

/-- C6 amended: provided the item is already present in the zone's map with
a non-negative quantity, `resource_add` followed by `resource_take` of the
same non-negative amount on an existing station and valid zone returns the
stations table — the station's ledger included — to exactly its prior
reading under every key.  (When the item key is absent the round trip
instead leaves an explicit 0 entry, the value the prior ledger read by
default.) -/
theorem add_take_roundtrip (db : DB) (station_id zone item : String) (amount : Int)
    (st : Station) (zm : ItemMap) (v : Int)
    (hz : RESOURCE_ZONES.contains (lowerStrip zone) = true)
    (hrow : db.stations.lookup (lowerStrip station_id) = some st)
    (hzm : st.resources.lookup (lowerStrip zone) = some zm)
    (hitem : zm.lookup (lowerStrip item) = some v)
    (hv : 0 ≤ v) (ha : 0 ≤ amount) :
    ∀ k, ((resource_take_core (resource_add_core db station_id zone item amount).2
        station_id zone item amount).2).stations.lookup k = db.stations.lookup k := by
  have hex : station_exists db (lowerStrip station_id) = true := by
    simp [station_exists, hrow]
  have hres : get_resources_db db (lowerStrip station_id) = st.resources := by
    simp [get_resources_db, hrow]
  have hmem : dictMem st.resources (lowerStrip zone) = true := by
    simp [dictMem, hzm]
  have hzmv : dictGetD st.resources (lowerStrip zone) [] = zm := by
    simp [dictGetD, hzm]
  have hiv : dictGetD zm (lowerStrip item) 0 = v := by
    simp [dictGetD, hitem]
  have hL1 : add_rmw st.resources (lowerStrip zone) (lowerStrip item) (max 0 amount) =
      dictSet st.resources (lowerStrip zone)
        (dictSet zm (lowerStrip item) (v + max 0 amount)) := by
    simp only [add_rmw, hmem, eq_self_iff_true, if_true, hzmv, hiv]
  have hadd : (resource_add_core db station_id zone item amount).2 =
      set_resources_db db (lowerStrip station_id)
        (dictSet st.resources (lowerStrip zone)
          (dictSet zm (lowerStrip item) (v + max 0 amount))) := by
    simp only [resource_add_core, hz, hex, if_true, Bool.not_true, Bool.false_eq_true,
      if_false, hres, hL1]
  have hrow1 : (set_resources_db db (lowerStrip station_id)
        (dictSet st.resources (lowerStrip zone)
          (dictSet zm (lowerStrip item) (v + max 0 amount)))).stations.lookup
        (lowerStrip station_id) =
      some { st with resources := (dictSet st.resources (lowerStrip zone)
        (dictSet zm (lowerStrip item) (v + max 0 amount))) } := by
    simp [set_resources_db, updateStationRow_lookup, hrow]
  have hex1 : station_exists (set_resources_db db (lowerStrip station_id)
        (dictSet st.resources (lowerStrip zone)
          (dictSet zm (lowerStrip item) (v + max 0 amount))))
        (lowerStrip station_id) = true := by
    simp [station_exists, hrow1]
  have hres1 : get_resources_db (set_resources_db db (lowerStrip station_id)
        (dictSet st.resources (lowerStrip zone)
          (dictSet zm (lowerStrip item) (v + max 0 amount))))
        (lowerStrip station_id) =
      dictSet st.resources (lowerStrip zone)
        (dictSet zm (lowerStrip item) (v + max 0 amount)) :=
    get_resources_set_resources db (lowerStrip station_id) _ st hrow
  have hmem2 : dictMem (dictSet st.resources (lowerStrip zone)
        (dictSet zm (lowerStrip item) (v + max 0 amount))) (lowerStrip zone) = true := by
    simp [dictMem, dictSet_lookup_self]
  have hzm2 : dictGetD (dictSet st.resources (lowerStrip zone)
        (dictSet zm (lowerStrip item) (v + max 0 amount))) (lowerStrip zone) [] =
      dictSet zm (lowerStrip item) (v + max 0 amount) :=
    dictGetD_dictSet_self _ _ _ _
  have hi2 : dictGetD (dictSet zm (lowerStrip item) (v + max 0 amount))
        (lowerStrip item) 0 = v + max 0 amount :=
    dictGetD_dictSet_self _ _ _ _
  have hval : max 0 (v + max 0 amount - max 0 amount) = v := by
    have hsub : v + max 0 amount - max 0 amount = v := by ring
    rw [hsub]
    exact max_eq_right hv
  have htake_rmw : take_rmw (dictSet st.resources (lowerStrip zone)
        (dictSet zm (lowerStrip item) (v + max 0 amount)))
        (lowerStrip zone) (lowerStrip item) (max 0 amount) = st.resources := by
    simp only [take_rmw, hmem2, eq_self_iff_true, if_true, hzm2, hi2, hval,
      dictSet_dictSet]
    rw [dictSet_self zm (lowerStrip item) v hitem,
      dictSet_self st.resources (lowerStrip zone) zm hzm]
  have htake : (resource_take_core (set_resources_db db (lowerStrip station_id)
        (dictSet st.resources (lowerStrip zone)
          (dictSet zm (lowerStrip item) (v + max 0 amount))))
        station_id zone item amount).2 =
      set_resources_db (set_resources_db db (lowerStrip station_id)
        (dictSet st.resources (lowerStrip zone)
          (dictSet zm (lowerStrip item) (v + max 0 amount))))
        (lowerStrip station_id) st.resources := by
    simp only [resource_take_core, hz, hex1, if_true, Bool.not_true, Bool.false_eq_true,
      if_false, hres1, htake_rmw]
  intro k
  rw [hadd, htake]
  simp only [set_resources_db]
  rw [updateStationRow_lookup, updateStationRow_lookup]
  cases hdb : db.stations.lookup k with
  | none => simp
  | some s0 =>
      cases hk : (k == lowerStrip station_id) with
      | true =>
          have hkk : k = lowerStrip station_id := beq_iff_eq.mp hk
          subst hkk
          have hs0 : s0 = st := by
            rw [hdb] at hrow
            exact Option.some.inj hrow
          subst hs0
          simp [hk]
      | false =>
          simp [hk]

/-- Witness: the round trip of 7 wood on a station whose lager already
holds 30 wood restores the stations table exactly. -/
theorem add_take_roundtrip_witness :
    ((resource_take_core (resource_add_core
        ⟨[], [], [("s1", ⟨"Base", "CAMP", "LDF", 100, 0,
          [("lager", [("wood", 30)]), ("verarbeitung", []), ("bauhaus", []),
           ("produktion", [])]⟩)], []⟩
        "s1" "lager" "wood" 7).2 "s1" "lager" "wood" 7).2).stations.lookup "s1" =
      (⟨[], [], [("s1", ⟨"Base", "CAMP", "LDF", 100, 0,
        [("lager", [("wood", 30)]), ("verarbeitung", []), ("bauhaus", []),
         ("produktion", [])]⟩)], []⟩ : DB).stations.lookup "s1" :=
  add_take_roundtrip
    ⟨[], [], [("s1", ⟨"Base", "CAMP", "LDF", 100, 0,
      [("lager", [("wood", 30)]), ("verarbeitung", []), ("bauhaus", []),
       ("produktion", [])]⟩)], []⟩
    "s1" "lager" "wood" 7
    ⟨"Base", "CAMP", "LDF", 100, 0,
      [("lager", [("wood", 30)]), ("verarbeitung", []), ("bauhaus", []),
       ("produktion", [])]⟩
    [("wood", 30)] 30 (by decide) rfl rfl rfl (by decide) (by decide) "s1"

/-- A row update whose function leaves `resources` alone leaves every
station's ledger view alone. -/
theorem resources_view_updateStationRow (db : DB) (sid : String) (f : Station → Station)
    (hf : ∀ st, (f st).resources = st.resources) :
    ∀ k, resources_view (updateStationRow db sid f) k = resources_view db k := by
  intro k
  simp only [resources_view, updateStationRow_lookup]
  cases db.stations.lookup k with
  | none => rfl
  | some s0 =>
      cases hk : (k == sid) with
      | true => simp [hf]
      | false => simp

/-- `update_station_type_db` never touches a ledger. -/
theorem resources_view_update_type (db : DB) (sid ty : String) :
    ∀ k, resources_view (update_station_type_db db sid ty) k = resources_view db k := by
  intro k
  unfold update_station_type_db
  exact resources_view_updateStationRow db sid (fun st => { st with stype := ty })
    (fun st => rfl) k

/-- `update_station_condition_db` never touches a ledger. -/
theorem resources_view_update_condition (db : DB) (sid : String) (c : Int) :
    ∀ k, resources_view (update_station_condition_db db sid c) k = resources_view db k := by
  intro k
  unfold update_station_condition_db
  exact resources_view_updateStationRow db sid (fun st => { st with condition := c })
    (fun st => rfl) k

/-- `update_station_protection_db` never touches a ledger. -/
theorem resources_view_update_protection (db : DB) (sid : String) (h : Int) :
    ∀ k, resources_view (update_station_protection_db db sid h) k = resources_view db k := by
  intro k
  unfold update_station_protection_db
  exact resources_view_updateStationRow db sid (fun st => { st with protection_hours := h })
    (fun st => rfl) k

/-- Identical ledger views under every key preserve every ledger. -/
theorem ledger_preserved_of_view (db db2 : DB)
    (h : ∀ k, resources_view db2 k = resources_view db k) :
    ledger_preserved db db2 := by
  intro k st hk
  rw [h k]
  simp [resources_view, hk]

/-- An untouched store preserves every ledger. -/
theorem ledger_preserved_refl (db : DB) : ledger_preserved db db := by
  intro k st hk
  simp [resources_view, hk]

/-- A store with the same stations table preserves every ledger. -/
theorem ledger_preserved_of_stations_eq (db db2 : DB)
    (h : db2.stations = db.stations) : ledger_preserved db db2 := by
  intro k st hk
  simp [resources_view, h, hk]

/-- What the touched zone reads as right after `take_rmw`. -/
theorem take_rmw_zone (res : Ledger) (z i : String) (a : Int) :
    dictGetD (take_rmw res z i a) z [] =
      dictSet (dictGetD res z []) i
        (max 0 (dictGetD (dictGetD res z []) i 0 - a)) := by
  unfold take_rmw
  rw [dictGetD_dictSet_self, ensureZone_getD]

/-- C5 as stated is false: on a station whose lager holds no wood at all,
a take of wood does create the `wood` item key (persisted with quantity 0)
even though no add ever introduced it. -/
theorem resource_take_creates_entry_counterexample :
    ((dictGetD (get_resources_db
        ⟨[], [], [("s1", ⟨"Base", "CAMP", "LDF", 100, 0, default_resources⟩)], []⟩
        "s1") "lager" []).lookup "wood" = none) ∧
    ((dictGetD (get_resources_db
        (resource_take_core
          ⟨[], [], [("s1", ⟨"Base", "CAMP", "LDF", 100, 0, default_resources⟩)], []⟩
          "s1" "lager" "wood" 5).2
        "s1") "lager" []).lookup "wood" = some 0) := by
  refine ⟨by decide, by decide⟩

/-- C5 amended: entry creation is not exclusive to `resource_add` —
`resource_take` on an item key absent from the zone's map does create that
key, persisting it with quantity 0 (after recreating the zone if missing);
every operation other than the two resource mutations leaves the ledger of
every existing station byte-for-byte unchanged, whatever the gates and
arguments. -/
theorem resource_entry_creation (db : DB) :
    (∀ station_id zone item amount st,
      RESOURCE_ZONES.contains (lowerStrip zone) = true →
      db.stations.lookup (lowerStrip station_id) = some st →
      (dictGetD st.resources (lowerStrip zone) []).lookup (lowerStrip item) = none →
      (dictGetD (get_resources_db (resource_take_core db station_id zone item amount).2
          (lowerStrip station_id)) (lowerStrip zone) []).lookup (lowerStrip item) =
        some 0) ∧
    (∀ (c : Cmd) (o sflag : Bool), c.isResourceMutation = false →
      ledger_preserved db (runCmd c o sflag db).2) := by
  constructor
  · intro station_id zone item amount st hz hrow hnone
    have hex : station_exists db (lowerStrip station_id) = true := by
      simp [station_exists, hrow]
    have hres : get_resources_db db (lowerStrip station_id) = st.resources := by
      simp [get_resources_db, hrow]
    have hmain : (resource_take_core db station_id zone item amount).2 =
        set_resources_db db (lowerStrip station_id)
          (take_rmw st.resources (lowerStrip zone) (lowerStrip item) (max 0 amount)) := by
      simp only [resource_take_core, hz, hex, if_true, Bool.not_true, Bool.false_eq_true,
        if_false, hres]
    rw [hmain, get_resources_set_resources db (lowerStrip station_id) _ st hrow,
      take_rmw_zone]
    have hcur : dictGetD (dictGetD st.resources (lowerStrip zone) [])
        (lowerStrip item) 0 = 0 := by
      simp only [dictGetD] at hnone ⊢
      rw [hnone]
      rfl
    rw [hcur]
    have hzero : max 0 (0 - max 0 amount) = (0 : Int) := by
      have h1 : (0 : Int) ≤ max 0 amount := le_max_left 0 amount
      have h2 : (0 : Int) - max 0 amount ≤ 0 := by omega
      exact max_eq_left h2
    rw [hzero]
    exact dictSet_lookup_self _ _ _
  · intro c o sflag hmut
    cases c with
    | factions => cases o <;> exact ledger_preserved_refl db
    | whoami uid =>
        cases o with
        | false => exact ledger_preserved_refl db
        | true =>
            show ledger_preserved db (whoami_core db uid).2
            have h2 : (whoami_core db uid).2 = db := by
              unfold whoami_core
              cases db.players.lookup uid <;> rfl
            rw [h2]
            exact ledger_preserved_refl db
    | stations =>
        cases o with
        | false => exact ledger_preserved_refl db
        | true =>
            show ledger_preserved db (stations_core db).2
            have h2 : (stations_core db).2 = db := by
              simp only [stations_core]
              split <;> rfl
            rw [h2]
            exact ledger_preserved_refl db
    | station_info sid =>
        cases o with
        | false => exact ledger_preserved_refl db
        | true =>
            show ledger_preserved db (station_info_core db sid).2
            have h2 : (station_info_core db sid).2 = db := by
              simp only [station_info_core]
              split <;> rfl
            rw [h2]
            exact ledger_preserved_refl db
    | station_members sid =>
        cases o with
        | false => exact ledger_preserved_refl db
        | true =>
            show ledger_preserved db (station_members_core db sid).2
            have h2 : (station_members_core db sid).2 = db := by
              simp only [station_members_core]
              split
              · rfl
              · split <;> rfl
            rw [h2]
            exact ledger_preserved_refl db
    | resource_show sid =>
        cases o with
        | false => exact ledger_preserved_refl db
        | true =>
            show ledger_preserved db (resource_show_core db sid).2
            have h2 : (resource_show_core db sid).2 = db := by
              simp only [resource_show_core]
              split <;> rfl
            rw [h2]
            exact ledger_preserved_refl db
    | join_faction uid un fk =>
        cases o with
        | false => exact ledger_preserved_refl db
        | true =>
            show ledger_preserved db (join_faction_core db uid un fk).2
            have h2 : (join_faction_core db uid un fk).2.stations = db.stations := by
              simp only [join_faction_core]
              split
              · rfl
              · split <;> rfl
            exact ledger_preserved_of_stations_eq db _ h2
    | create_station sid nm ty ow mc =>
        cases o with
        | false => exact ledger_preserved_refl db
        | true =>
            cases sflag with
            | false => exact ledger_preserved_refl db
            | true =>
                show ledger_preserved db (create_station_core db sid nm ty ow mc).2
                intro k st hk
                simp only [create_station_core]
                split
                · simp [resources_view, hk]
                · split
                  · simp [resources_view, hk]
                  · split
                    · simp [resources_view, hk]
                    · next hfree =>
                        have hkne : k ≠ lowerStrip sid := by
                          intro he
                          subst he
                          exact hfree (by simp [station_exists, hk])
                        simp only [resources_view, create_station_db]
                        rw [dictSet_lookup_ne db.stations (lowerStrip sid) k _ hkne]
                        simp [hk]
    | station_add_member uid sid =>
        cases o with
        | false => exact ledger_preserved_refl db
        | true =>
            cases sflag with
            | false => exact ledger_preserved_refl db
            | true =>
                show ledger_preserved db (station_add_member_core db uid sid).2
                have h2 : (station_add_member_core db uid sid).2.stations =
                    db.stations := by
                  simp only [station_add_member_core, add_station_member_db]
                  split
                  · rfl
                  · split <;> rfl
                exact ledger_preserved_of_stations_eq db _ h2
    | station_remove_member uid sid =>
        cases o with
        | false => exact ledger_preserved_refl db
        | true =>
            cases sflag with
            | false => exact ledger_preserved_refl db
            | true =>
                show ledger_preserved db (station_remove_member_core db uid sid).2
                have h2 : (station_remove_member_core db uid sid).2.stations =
                    db.stations := by
                  simp only [station_remove_member_core, remove_station_member_db]
                  split <;> rfl
                exact ledger_preserved_of_stations_eq db _ h2
    | station_set_type sid ty =>
        cases o with
        | false => exact ledger_preserved_refl db
        | true =>
            cases sflag with
            | false => exact ledger_preserved_refl db
            | true =>
                show ledger_preserved db (station_set_type_core db sid ty).2
                apply ledger_preserved_of_view
                intro k
                simp only [station_set_type_core]
                split
                · rfl
                · split
                  · rfl
                  · split
                    · split
                      · simp only [resources_view_update_protection,
                          resources_view_update_type]
                      · simp only [resources_view_update_type]
                    · simp only [resources_view_update_type]
    | station_set_condition sid c =>
        cases o with
        | false => exact ledger_preserved_refl db
        | true =>
            cases sflag with
            | false => exact ledger_preserved_refl db
            | true =>
                show ledger_preserved db (station_set_condition_core db sid c).2
                apply ledger_preserved_of_view
                intro k
                simp only [station_set_condition_core]
                split
                · rfl
                · simp only [resources_view_update_condition]
    | station_set_protection sid h =>
        cases o with
        | false => exact ledger_preserved_refl db
        | true =>
            cases sflag with
            | false => exact ledger_preserved_refl db
            | true =>
                show ledger_preserved db (station_set_protection_core db sid h).2
                apply ledger_preserved_of_view
                intro k
                simp only [station_set_protection_core]
                split
                · rfl
                · simp only [resources_view_update_protection]
    | resource_add sid z it a => simp [Cmd.isResourceMutation] at hmut
    | resource_take sid z it a => simp [Cmd.isResourceMutation] at hmut

/-- Witness: on a station whose lager is empty, a take of wood leaves the
wood key persisted with quantity 0. -/
theorem resource_entry_creation_witness :
    (dictGetD (get_resources_db
        (resource_take_core
          ⟨[], [], [("s1", ⟨"Base", "CAMP", "LDF", 100, 0, default_resources⟩)], []⟩
          "s1" "lager" "wood" 5).2
        "s1") "lager" []).lookup "wood" = some 0 :=
  (resource_entry_creation
      ⟨[], [], [("s1", ⟨"Base", "CAMP", "LDF", 100, 0, default_resources⟩)], []⟩).1
    "s1" "lager" "wood" 5 ⟨"Base", "CAMP", "LDF", 100, 0, default_resources⟩
    (by decide) rfl (by decide)

end SystemBot
